import Mathlib

/-!
Shallow embedding of `src/Server.js` (Express + mysql2 backend of the
Deep Learner Academy education platform).

Modelling conventions:
* a JS request-body field is `Option String` (`none` = the property is
  absent / `undefined`);
* JS truthiness of such a value is `truthy` below (undefined and the
  empty string are falsy);
* the MySQL pool is a `DB` record of tables (lists of rows) plus the
  auto-increment counters that produce `result.insertId`; every handler
  uses `db.query()` (text protocol), whose escaping turns an `undefined`
  bind into SQL `NULL` and runs the statement, so text columns are
  `Option String` (`none` = `NULL`) and `sqlEq` below is the SQL
  comparison `col = ?`, which a `NULL` on either side never satisfies;
  a query can still fail for a reason outside the source — connection
  trouble or a schema constraint, the schema being nowhere in the
  repository — modelled by a `fault` flag consumed at each query
  position;
* wall-clock time (`Date.now()`, SQL `NOW()`) is a `Nat` of epoch
  milliseconds passed to each handler;
* `Math.random()` is a rational parameter `r` with `0 ≤ r < 1`;
* the e-mail HTML bodies are long template literals that no claim
  depends on, so a `Mail` records only the recipient and subject.
-/

/-- JS truthiness of a possibly-undefined string value: `undefined` and
`""` are falsy, every other string is truthy. -/
def truthy : Option String → Bool
  | none => false
  | some s => !s.isEmpty

/-- JS template-literal stringification of a possibly-undefined value:
`undefined` prints as "undefined". -/
def jsStr : Option String → String
  | none => "undefined"
  | some s => s

/-- The SQL comparison `col = ?` between a nullable column value and a
bind parameter: `NULL` on either side never matches (mysql2's
`query()` escapes an `undefined` bind to SQL `NULL`, and
`col = NULL` is never true). -/
def sqlEq : Option String → Option String → Bool
  | some a, some b => a = b
  | _, _ => false

/-- An e-mail, reduced to recipient (`to` in the source) and subject
(the HTML body is a template literal no claim depends on). -/
structure Mail where
  recipient : String
  subject : String
deriving Repr, DecidableEq

/-- State of the nodemailer side: whether `transporter` is non-null and
whether `transporter.sendMail` rejects. -/
structure MailEnv where
  configured : Bool
  sendFails : Bool
deriving Repr, DecidableEq

/-- `transporter.sendMail(...)`: delivers the mail or rejects. -/
def transporterSendMail (env : MailEnv) (m : Mail) : Except Unit (List Mail) :=
  if env.sendFails then .error () else .ok [m]

/-- `sendMailSafe` from Server.js: if the transporter is not configured,
log a warning and return; otherwise try to send, and on failure log and
swallow the error.  It never throws; its only observable effect is the
list of mails actually delivered. -/
def sendMailSafe (env : MailEnv) (m : Mail) : List Mail :=
  if !env.configured then []
  else
    match transporterSendMail env m with
    | .ok sent => sent
    | .error _ => []

/-- The login, register and demo-request handlers call `sendMail`, a
function that is defined nowhere in Server.js (only `sendMailSafe` is).
At runtime the call raises `ReferenceError: sendMail is not defined`,
which the handler's `catch` turns into a 500 response. -/
def sendMail (_recipient _subject : String) : Except Unit (List Mail) := .error ()

/-- Node's `path.extname` restricted to plain base names (multer's
`file.originalname`): the substring from the last `'.'` to the end,
empty when there is no dot or when the only dot is the leading
character (dotfiles have no extension). -/
def extname (name : String) : String :=
  let cs := name.toList
  let revTail := cs.reverse.takeWhile (fun c => c ≠ '.')
  if revTail.length = cs.length then ""
  else if revTail.length + 1 = cs.length then ""
  else String.mk ('.' :: revTail.reverse)

-- ------------------ table rows ------------------

/-- A row of `users` (signup inserts name, email, password; `id` is the
auto-increment key so that `SELECT *` returns the full row, plaintext
password included).  The text columns are nullable because no schema in
the repository forbids it and signup binds the body fields as-is. -/
structure UserRow where
  id : Nat
  name : Option String
  email : Option String
  password : Option String
deriving Repr, DecidableEq

/-- A row of `user_otps`; `email` and `otp` are the binds of the login
INSERT. -/
structure OtpRow where
  email : Option String
  otp : Option String
  expiresAt : Nat
deriving Repr, DecidableEq

/-- A row of `enrollments`.  `status` is a plain string because the
handler always binds the defaulted value. -/
structure EnrollmentRow where
  id : Nat
  name : Option String
  email : Option String
  phone : Option String
  status : String
  courseId : Option String
deriving Repr, DecidableEq

/-- A row of `registrations`. -/
structure RegistrationRow where
  name : Option String
  email : Option String
  phone : Option String
  currentStatus : Option String
  workshopTitle : Option String
deriving Repr, DecidableEq

/-- A row of `mentor_applications`; `resume` is the stored filename
produced by multer. -/
structure MentorApplicationRow where
  id : Nat
  name : Option String
  email : Option String
  phone : Option String
  expertise : Option String
  experience : Option String
  message : Option String
  resume : String
deriving Repr, DecidableEq

/-- A row of `testimonials`. -/
structure TestimonialRow where
  id : Nat
  name : Option String
  role : Option String
  review : Option String
  verified : Option String
deriving Repr, DecidableEq

/-- A row of `demo_requests`. -/
structure DemoRequestRow where
  id : Nat
  name : Option String
  email : Option String
  phone : Option String
  status : Option String
  course : Option String
  message : Option String
deriving Repr, DecidableEq

/-- The relational store: one list per table touched by the handlers
under verification, plus the auto-increment counters whose current
value becomes `result.insertId` on the next insert. -/
structure DB where
  users : List UserRow
  nextUserId : Nat
  userOtps : List OtpRow
  enrollments : List EnrollmentRow
  nextEnrollmentId : Nat
  registrations : List RegistrationRow
  mentorApplications : List MentorApplicationRow
  nextMentorApplicationId : Nat
  testimonials : List TestimonialRow
  nextTestimonialId : Nat
  demoRequests : List DemoRequestRow
  nextDemoRequestId : Nat
deriving Repr, DecidableEq

-- ------------------ ENROLL ------------------

/-- Body of `POST /api/enroll`. -/
structure EnrollBody where
  name : Option String
  email : Option String
  phone : Option String
  status : Option String
  courseId : Option String
deriving Repr, DecidableEq

/-- The three responses of the enroll handler. -/
inductive EnrollResp
  | missingFields
  | success (enrollmentId : Nat)
  | serverError
deriving Repr, DecidableEq

/-- HTTP status of each enroll response. -/
def EnrollResp.status : EnrollResp → Nat
  | .missingFields => 400
  | .success _ => 201
  | .serverError => 500

/-- `POST /api/enroll`: destructure the body with default
`status = "Pending"`, reject falsy required fields with 400, insert the
enrollment, send both notification mails through `sendMailSafe` (which
never throws), respond 201 with `result.insertId`.  `fault` is true when
the INSERT fails for an external reason. -/
def enrollHandler (db : DB) (env : MailEnv) (fault : Bool) (b : EnrollBody) :
    EnrollResp × DB × List Mail :=
  let status := b.status.getD "Pending"
  if !(truthy b.name && truthy b.email && truthy b.phone && truthy b.courseId) then
    (.missingFields, db, [])
  else if fault then (.serverError, db, [])
  else
    let id := db.nextEnrollmentId
    let db' := { db with
      enrollments := db.enrollments ++
        [⟨id, b.name, b.email, b.phone, status, b.courseId⟩],
      nextEnrollmentId := id + 1 }
    let m1 := sendMailSafe env ⟨"deeplearneracademy@gmail.com", "📩 New Enrollment"⟩
    let m2 := sendMailSafe env ⟨jsStr b.email, "✅ Enrollment Successful"⟩
    (.success id, db', m1 ++ m2)

-- ------------------ SIGNUP ------------------

/-- Body of `POST /api/signup`. -/
structure SignupBody where
  name : Option String
  email : Option String
  password : Option String
deriving Repr, DecidableEq

/-- The three responses of the signup handler. -/
inductive SignupResp
  | userExists
  | success
  | serverError
deriving Repr, DecidableEq

/-- HTTP status of each signup response. -/
def SignupResp.status : SignupResp → Nat
  | .userExists => 400
  | .success => 200
  | .serverError => 500

/-- `POST /api/signup`: no field validation at all.  Query 0 is the
existence SELECT (`WHERE email = ?`; an absent email is escaped to
`NULL`, which matches no row), query 1 the INSERT, which binds name,
email and password as given — absent fields become `NULL` columns.
`fault i` is true when query `i` fails outside the source (connection,
schema constraint). -/
def signupHandler (db : DB) (fault : Nat → Bool) (b : SignupBody) :
    SignupResp × DB :=
  if fault 0 then (.serverError, db)
  else
    let existing := db.users.filter (fun u => sqlEq u.email b.email)
    if existing.length > 0 then (.userExists, db)
    else if fault 1 then (.serverError, db)
    else
      (.success, { db with
        users := db.users ++ [⟨db.nextUserId, b.name, b.email, b.password⟩],
        nextUserId := db.nextUserId + 1 })

-- ------------------ LOGIN (step 1: request OTP) ------------------

/-- Body of `POST /api/login`. -/
structure LoginBody where
  email : Option String
  password : Option String
deriving Repr, DecidableEq

/-- The three responses of the login handler. -/
inductive LoginResp
  | invalidCredentials
  | otpSent
  | serverError
deriving Repr, DecidableEq

/-- HTTP status of each login response. -/
def LoginResp.status : LoginResp → Nat
  | .invalidCredentials => 400
  | .otpSent => 200
  | .serverError => 500

/-- `Math.floor(100000 + Math.random() * 900000)` with
`Math.random() = r ∈ [0, 1)`. -/
def genOtp (r : ℚ) : Nat := (⌊(100000 : ℚ) + r * 900000⌋).toNat

/-- `POST /api/login`: query 0 selects the user by email AND password
(an absent bind is escaped to `NULL` and matches nothing), a miss is
400; on a hit the 6-digit OTP is generated and stored (query 1) with
`expires_at = Date.now() + 10 * 60 * 1000`; then the handler calls the
undefined `sendMail`, whose ReferenceError is caught, so the response
after a successful insert is always 500 — never the "OTP sent" 200. -/
def loginHandler (db : DB) (now : Nat) (r : ℚ) (fault : Nat → Bool)
    (b : LoginBody) : LoginResp × DB :=
  if fault 0 then (.serverError, db)
  else
    let rows := db.users.filter
      (fun u => sqlEq u.email b.email && sqlEq u.password b.password)
    if rows.isEmpty then (.invalidCredentials, db)
    else
      let otp := (genOtp r).repr
      let expiresAt := now + 10 * 60 * 1000
      if fault 1 then (.serverError, db)
      else
        let db' := { db with userOtps := db.userOtps ++ [⟨b.email, some otp, expiresAt⟩] }
        match sendMail (jsStr b.email) "Your OTP Code" with
        | .ok _ => (.otpSent, db')
        | .error _ => (.serverError, db')

-- ------------------ VERIFY OTP (step 2) ------------------

/-- Body of `POST /api/verify-otp`. -/
structure VerifyOtpBody where
  email : Option String
  otp : Option String
deriving Repr, DecidableEq

/-- The three responses of the verify-otp handler; `success` carries the
fixed placeholder token and `users[0]` (undefined when no user row
matches the email). -/
inductive VerifyOtpResp
  | invalidOtp
  | success (token : String) (user : Option UserRow)
  | serverError
deriving Repr, DecidableEq

/-- HTTP status of each verify-otp response. -/
def VerifyOtpResp.status : VerifyOtpResp → Nat
  | .invalidOtp => 400
  | .success _ _ => 200
  | .serverError => 500

/-- `POST /api/verify-otp`: query 0 selects the OTP rows with matching
email, matching otp and `expires_at > NOW()` (an absent bind is `NULL`
and matches nothing); no match is 400.  On a match, query 1 deletes ALL
`user_otps` rows for that email, query 2 fetches the user rows for the
email, and the handler responds 200 with the placeholder token and
`users[0]`. -/
def verifyOtpHandler (db : DB) (now : Nat) (fault : Nat → Bool)
    (b : VerifyOtpBody) : VerifyOtpResp × DB :=
  if fault 0 then (.serverError, db)
  else
    let rows := db.userOtps.filter
      (fun row => sqlEq row.email b.email && sqlEq row.otp b.otp &&
        decide (now < row.expiresAt))
    if rows.isEmpty then (.invalidOtp, db)
    else if fault 1 then (.serverError, db)
    else
      let db1 := { db with
        userOtps := db.userOtps.filter (fun row => !(sqlEq row.email b.email)) }
      if fault 2 then (.serverError, db1)
      else
        let users := db1.users.filter (fun u => sqlEq u.email b.email)
        (.success "FAKE-JWT-TOKEN" users.head?, db1)

-- ------------------ REGISTER ------------------

/-- Body of `POST /api/register`. -/
structure RegisterBody where
  name : Option String
  email : Option String
  phone : Option String
  currentStatus : Option String
  workshop : Option String
deriving Repr, DecidableEq

/-- The three responses of the register handler. -/
inductive RegisterResp
  | missingFields
  | success
  | serverError
deriving Repr, DecidableEq

/-- HTTP status of each register response. -/
def RegisterResp.status : RegisterResp → Nat
  | .missingFields => 400
  | .success => 200
  | .serverError => 500

/-- `POST /api/register`: rejects falsy name, email, phone or workshop
with 400 (`currentStatus` is NOT validated — an absent one is inserted
as `NULL`); inserts the registration; then calls the undefined
`sendMail`, so after a successful insert the response is always 500. -/
def registerHandler (db : DB) (fault : Bool) (b : RegisterBody) :
    RegisterResp × DB :=
  if !(truthy b.name && truthy b.email && truthy b.phone && truthy b.workshop) then
    (.missingFields, db)
  else if fault then (.serverError, db)
  else
    let db' := { db with registrations :=
      db.registrations ++ [⟨b.name, b.email, b.phone, b.currentStatus, b.workshop⟩] }
    match sendMail "deeplearneracademy@gmail.com" "📩 New Workshop Registration" with
    | .ok _ =>
      match sendMail (jsStr b.email) "✅ Registered" with
      | .ok _ => (.success, db')
      | .error _ => (.serverError, db')
    | .error _ => (.serverError, db')

-- ------------------ MENTOR APPLY ------------------

/-- A file arriving in the multipart field `resume`, as multer sees it:
its client-supplied original name and its size in bytes. -/
structure IncomingFile where
  originalname : String
  size : Nat
deriving Repr, DecidableEq

/-- A file multer has saved: the original name and the stored filename
`Date.now() + path.extname(originalname)`. -/
structure UploadedFile where
  originalname : String
  filename : String
deriving Repr, DecidableEq

/-- The two ways the upload middleware rejects a file. -/
inductive UploadErr
  | invalidFileType
  | fileTooLarge
deriving Repr, DecidableEq

/-- JS `String.prototype.toLowerCase` on the ASCII file extensions at
play: lower-case each character. -/
def toLowerCase (s : String) : String := String.mk (s.toList.map Char.toLower)

/-- The `fileFilter` of the `upload` multer instance: accept exactly the
extensions .pdf, .doc, .docx, case-insensitively. -/
def fileFilterOk (originalname : String) : Bool :=
  [".pdf", ".doc", ".docx"].contains (toLowerCase (extname originalname))

/-- `upload.single("resume")`: no file leaves `req.file` undefined and
the request proceeds; a file failing `fileFilter` is rejected before
anything is written to disk; a file over the 10 MiB `fileSize` limit is
rejected and the partial file is removed by the disk storage engine.
An accepted file is written to the uploads directory under the name
`Date.now() + extname(originalname)` before the route handler runs.
`uploads` is the list of filenames in the uploads directory. -/
def multerSingleResume (uploads : List String) (file : Option IncomingFile)
    (now : Nat) : Except UploadErr (List String × Option UploadedFile) :=
  match file with
  | none => .ok (uploads, none)
  | some f =>
    if !fileFilterOk f.originalname then .error .invalidFileType
    else if f.size > 10 * 1024 * 1024 then .error .fileTooLarge
    else
      let fname := now.repr ++ extname f.originalname
      .ok (uploads ++ [fname], some ⟨f.originalname, fname⟩)

/-- Modelled from Express's documented default error handler (this code
is part of Express, not of this repository, and Server.js installs no
error-handling middleware of its own): an error passed to `next(err)`
that carries no `status`/`statusCode` — such as multer's
`new Error("Invalid file type")` — is answered with status 500. -/
def expressDefaultErrorStatus : Nat := 500

/-- Body fields of `POST /api/mentor-apply` (multipart text fields). -/
structure MentorApplyBody where
  name : Option String
  email : Option String
  phone : Option String
  expertise : Option String
  experience : Option String
  message : Option String
deriving Repr, DecidableEq

/-- The responses of the mentor-apply route, the middleware rejection
included. -/
inductive MentorApplyResp
  | uploadRejected (e : UploadErr)
  | resumeRequired
  | success (id : Nat) (fileUrl : String)
  | serverError
deriving Repr, DecidableEq

/-- HTTP status of each mentor-apply response: a middleware error
reaches Express's default error handler, whose status for a status-less
error is 500. -/
def MentorApplyResp.status : MentorApplyResp → Nat
  | .uploadRejected _ => expressDefaultErrorStatus
  | .resumeRequired => 400
  | .success _ _ => 200
  | .serverError => 500

/-- `POST /api/mentor-apply`: the multer middleware runs first (writing
an accepted file to disk); the handler then answers 400 when `req.file`
is undefined, inserts the application (seven binds: the six body fields
and the stored filename) and responds with `result.insertId` and
`fileUrl = "/uploads/" + resume`.  On an insert failure the already
written file is not removed.  Returns (response, store, uploads dir). -/
def mentorApplyRoute (db : DB) (uploads : List String) (now : Nat)
    (fault : Bool) (b : MentorApplyBody) (file : Option IncomingFile) :
    MentorApplyResp × DB × List String :=
  match multerSingleResume uploads file now with
  | .error e => (.uploadRejected e, db, uploads)
  | .ok (uploads', saved) =>
    match saved with
    | none => (.resumeRequired, db, uploads')
    | some f =>
      let resume := f.filename
      if fault then (.serverError, db, uploads')
      else
        let id := db.nextMentorApplicationId
        let db' := { db with
          mentorApplications := db.mentorApplications ++
            [⟨id, b.name, b.email, b.phone, b.expertise, b.experience, b.message, resume⟩],
          nextMentorApplicationId := id + 1 }
        (.success id ("/uploads/" ++ resume), db', uploads')

-- ------------------ TESTIMONIALS (POST) ------------------

/-- Body of `POST /api/testimonials`. -/
structure TestimonialBody where
  name : Option String
  role : Option String
  review : Option String
  verified : Option String
deriving Repr, DecidableEq

/-- The two responses of the testimonial POST handler. -/
inductive TestimonialResp
  | success (id : Nat)
  | serverError
deriving Repr, DecidableEq

/-- HTTP status of each testimonial response. -/
def TestimonialResp.status : TestimonialResp → Nat
  | .success _ => 200
  | .serverError => 500

/-- `POST /api/testimonials`: no validation; one INSERT with binds
name, role, review, verified — absent fields become `NULL` columns;
responds with `result.insertId`. -/
def testimonialsHandler (db : DB) (fault : Bool) (b : TestimonialBody) :
    TestimonialResp × DB :=
  if fault then (.serverError, db)
  else
    let id := db.nextTestimonialId
    (.success id, { db with
      testimonials := db.testimonials ++ [⟨id, b.name, b.role, b.review, b.verified⟩],
      nextTestimonialId := id + 1 })

-- ------------------ DEMO REQUEST ------------------

/-- Body of `POST /api/demo-request`. -/
structure DemoRequestBody where
  name : Option String
  email : Option String
  phone : Option String
  status : Option String
  course : Option String
  message : Option String
deriving Repr, DecidableEq

/-- The two responses of the demo-request handler. -/
inductive DemoRequestResp
  | success (id : Nat)
  | serverError
deriving Repr, DecidableEq

/-- HTTP status of each demo-request response. -/
def DemoRequestResp.status : DemoRequestResp → Nat
  | .success _ => 200
  | .serverError => 500

/-- `POST /api/demo-request`: no validation; one INSERT with six binds,
absent fields becoming `NULL` columns; then two calls to the undefined
`sendMail`, so after a successful insert the response is always 500 —
yet the row stays inserted. -/
def demoRequestHandler (db : DB) (fault : Bool) (b : DemoRequestBody) :
    DemoRequestResp × DB :=
  if fault then (.serverError, db)
  else
    let id := db.nextDemoRequestId
    let db' := { db with
      demoRequests := db.demoRequests ++
        [⟨id, b.name, b.email, b.phone, b.status, b.course, b.message⟩],
      nextDemoRequestId := id + 1 }
    match sendMail "deeplearneracademy@gmail.com" "📩 New Demo Request" with
    | .ok _ =>
      match sendMail (jsStr b.email) "✅ Your Demo Request Received" with
      | .ok _ => (.success id, db')
      | .error _ => (.serverError, db')
    | .error _ => (.serverError, db')

-- ------------------ concrete store for witnesses ------------------

/-- A small concrete store: one user, empty tables, all auto-increment
counters at their MySQL initial value 1. -/
def dbW : DB :=
  ⟨[⟨1, some "Alice", some "alice@example.com", some "hunter2"⟩],
    2, [], [], 1, [], [], 1, [], 1, [], 1⟩

/-- A no-fault oracle: every query succeeds. -/
def noFault : Nat → Bool := fun _ => false

-- ------------------ C2 ------------------

/-- C2: an enroll request whose body contains truthy name, email, phone
and courseId and whose INSERT succeeds is answered 201 with
`enrollmentId = result.insertId`, which is positive and equals the id of
the appended row — for every state of the mail transport `env`, since
the conclusion does not depend on `env`. -/
theorem enroll_success_201_insertId (db : DB) (env : MailEnv) (b : EnrollBody)
    (hname : truthy b.name = true) (hemail : truthy b.email = true)
    (hphone : truthy b.phone = true) (hcourse : truthy b.courseId = true)
    (hid : 0 < db.nextEnrollmentId) :
    (enrollHandler db env false b).1 = .success db.nextEnrollmentId ∧
    (enrollHandler db env false b).1.status = 201 ∧
    0 < db.nextEnrollmentId ∧
    (enrollHandler db env false b).2.1.enrollments =
      db.enrollments ++ [⟨db.nextEnrollmentId, b.name, b.email, b.phone,
        b.status.getD "Pending", b.courseId⟩] := by
  refine ⟨?_, ?_, hid, ?_⟩ <;>
    simp [enrollHandler, hname, hemail, hphone, hcourse, EnrollResp.status]

/-- Witness for C2 at a concrete request against `dbW`. -/
theorem enroll_success_201_insertId_witness :
    truthy (some "Bob") = true ∧ 0 < dbW.nextEnrollmentId ∧
    (enrollHandler dbW ⟨true, true⟩ false
      ⟨some "Bob", some "bob@example.com", some "123", none, some "7"⟩).1 =
      .success dbW.nextEnrollmentId :=
  ⟨by decide, by decide,
    (enroll_success_201_insertId dbW ⟨true, true⟩
      ⟨some "Bob", some "bob@example.com", some "123", none, some "7"⟩
      (by decide) (by decide) (by decide) (by decide) (by decide)).1⟩

-- ------------------ C8 ------------------

/-- C8: a valid enroll request that omits `status` stores the string
"Pending" in the new row's status column, and one that supplies
`status` stores it as given (the inserted row's status is
`b.status.getD "Pending"`, the JS destructuring default). -/
theorem enroll_status_defaults_to_pending (db : DB) (env : MailEnv) (b : EnrollBody)
    (hname : truthy b.name = true) (hemail : truthy b.email = true)
    (hphone : truthy b.phone = true) (hcourse : truthy b.courseId = true) :
    (enrollHandler db env false b).2.1.enrollments =
      db.enrollments ++ [⟨db.nextEnrollmentId, b.name, b.email, b.phone,
        b.status.getD "Pending", b.courseId⟩] ∧
    (b.status = none → b.status.getD "Pending" = "Pending") ∧
    (∀ s, b.status = some s → b.status.getD "Pending" = s) := by
  refine ⟨?_, ?_, ?_⟩
  · simp [enrollHandler, hname, hemail, hphone, hcourse]
  · intro h; simp [h]
  · intro s h; simp [h]

/-- Witness for C8: the same concrete request with `status` omitted has
"Pending" stored. -/
theorem enroll_status_defaults_to_pending_witness :
    truthy (some "Carol") = true ∧
    (enrollHandler dbW ⟨false, false⟩ false
      ⟨some "Carol", some "c@example.com", some "9", none, some "3"⟩).2.1.enrollments =
      dbW.enrollments ++ [⟨dbW.nextEnrollmentId, some "Carol", some "c@example.com",
        some "9", "Pending", some "3"⟩] :=
  ⟨by decide,
    (enroll_status_defaults_to_pending dbW ⟨false, false⟩
      ⟨some "Carol", some "c@example.com", some "9", none, some "3"⟩
      (by decide) (by decide) (by decide) (by decide)).1⟩

-- ------------------ helper lemmas ------------------

/-- A list containing an element satisfying the predicate has a
non-empty filtrate. -/
theorem filter_isEmpty_eq_false {α : Type} (l : List α) (p : α → Bool)
    (a : α) (ha : a ∈ l) (hpa : p a = true) : (l.filter p).isEmpty = false := by
  rw [List.isEmpty_eq_false_iff_exists_mem]
  exact ⟨a, List.mem_filter.mpr ⟨ha, hpa⟩⟩

/-- A column value that is not `some e` fails the comparison with the
bind `some e`. -/
theorem sqlEq_eq_false_of_ne (v : Option String) (e : String)
    (h : ¬v = some e) : sqlEq v (some e) = false := by
  cases v with
  | none => rfl
  | some x =>
    have hx : ¬x = e := fun hh => h (by rw [hh])
    simp [sqlEq, hx]

/-- A column value passing the comparison with the bind `some e` is
`some e`. -/
theorem eq_of_sqlEq_eq_true (v : Option String) (e : String)
    (h : sqlEq v (some e) = true) : v = some e := by
  cases v with
  | none => simp [sqlEq] at h
  | some x =>
    simp [sqlEq] at h
    rw [h]

/-- A `NULL` bind matches no column value. -/
theorem sqlEq_none_eq_false (v : Option String) : sqlEq v none = false := by
  cases v <;> rfl

/-- Bounds of the generated one-time code. -/
theorem genOtp_bounds (r : ℚ) (h0 : 0 ≤ r) (h1 : r < 1) :
    100000 ≤ genOtp r ∧ genOtp r ≤ 999999 := by
  unfold genOtp
  have hfl : (100000 : ℤ) ≤ ⌊(100000 : ℚ) + r * 900000⌋ := by
    rw [Int.le_floor]; push_cast; nlinarith
  have hfu : ⌊(100000 : ℚ) + r * 900000⌋ < 1000000 := by
    rw [Int.floor_lt]; push_cast; nlinarith
  omega

/-- A natural number in [100000, 999999] has exactly six decimal
digits. -/
theorem digits_length_six (n : Nat) (hl : 100000 ≤ n) (hu : n ≤ 999999) :
    (Nat.digits 10 n).length = 6 := by
  rw [Nat.digits_len 10 n (by norm_num) (by omega)]
  have : Nat.log 10 n = 5 :=
    Nat.log_eq_of_pow_le_of_lt_pow (by norm_num; omega) (by norm_num; omega)
  omega

-- ------------------ C1 ------------------

/-- C1 (the code contradicts it): enroll indeed notifies via
`sendMailSafe` and answers 201 whatever the transport does, but login,
register and demo-request call `sendMail`, a function defined nowhere in
Server.js; the resulting ReferenceError is caught by each handler's
`catch`, so after their successful database write they respond 500 —
never the success response the claim promises. -/
theorem notification_step_changes_response
    (db1 : DB) (now : Nat) (r : ℚ) (e p : String)
    (h1 : ∃ u ∈ db1.users, u.email = some e ∧ u.password = some p)
    (db2 : DB) (rb : RegisterBody)
    (h2a : truthy rb.name = true) (h2b : truthy rb.email = true)
    (h2c : truthy rb.phone = true) (h2d : truthy rb.workshop = true)
    (cs : String) (h2e : rb.currentStatus = some cs)
    (db3 : DB) (qb : DemoRequestBody) (n1 n2 n3 n4 n5 n6 : String)
    (h3a : qb.name = some n1) (h3b : qb.email = some n2)
    (h3c : qb.phone = some n3) (h3d : qb.status = some n4)
    (h3e : qb.course = some n5) (h3f : qb.message = some n6)
    (db4 : DB) (env : MailEnv) (eb : EnrollBody)
    (h4a : truthy eb.name = true) (h4b : truthy eb.email = true)
    (h4c : truthy eb.phone = true) (h4d : truthy eb.courseId = true) :
    (loginHandler db1 now r noFault ⟨some e, some p⟩).1 = .serverError ∧
    (loginHandler db1 now r noFault ⟨some e, some p⟩).1.status = 500 ∧
    (registerHandler db2 false rb).1 = .serverError ∧
    (demoRequestHandler db3 false qb).1 = .serverError ∧
    (enrollHandler db4 env false eb).1 = .success db4.nextEnrollmentId := by
  obtain ⟨u, hu, hue, hup⟩ := h1
  have hfe : (db1.users.filter
      (fun v => sqlEq v.email (some e) && sqlEq v.password (some p))).isEmpty
        = false := by
    refine filter_isEmpty_eq_false _ _ u hu ?_
    simp [sqlEq, hue, hup]
  refine ⟨?_, ?_, ?_, ?_, ?_⟩
  · simp [loginHandler, noFault, hfe, sendMail]
  · simp [loginHandler, noFault, hfe, sendMail, LoginResp.status]
  · simp [registerHandler, h2a, h2b, h2c, h2d, h2e, sendMail]
  · simp [demoRequestHandler, h3a, h3b, h3c, h3d, h3e, h3f, sendMail]
  · simp [enrollHandler, h4a, h4b, h4c, h4d]

/-- Witness for C1 at concrete requests against `dbW`. -/
theorem notification_step_changes_response_witness :
    (∃ u ∈ dbW.users,
      u.email = some "alice@example.com" ∧ u.password = some "hunter2") ∧
    (loginHandler dbW 0 (1/2) noFault
      ⟨some "alice@example.com", some "hunter2"⟩).1 = .serverError ∧
    (registerHandler dbW false
      ⟨some "N", some "n@x.y", some "1", some "Student", some "W"⟩).1 = .serverError ∧
    (demoRequestHandler dbW false
      ⟨some "N", some "n@x.y", some "1", some "S", some "C", some "M"⟩).1 = .serverError :=
  ⟨by decide,
    (notification_step_changes_response dbW 0 (1/2) "alice@example.com" "hunter2"
      (by decide) dbW ⟨some "N", some "n@x.y", some "1", some "Student", some "W"⟩
      (by decide) (by decide) (by decide) (by decide) "Student" rfl
      dbW ⟨some "N", some "n@x.y", some "1", some "S", some "C", some "M"⟩
      "N" "n@x.y" "1" "S" "C" "M" rfl rfl rfl rfl rfl rfl
      dbW ⟨true, false⟩ ⟨some "E", some "e@x.y", some "2", none, some "4"⟩
      (by decide) (by decide) (by decide) (by decide)).1,
    (notification_step_changes_response dbW 0 (1/2) "alice@example.com" "hunter2"
      (by decide) dbW ⟨some "N", some "n@x.y", some "1", some "Student", some "W"⟩
      (by decide) (by decide) (by decide) (by decide) "Student" rfl
      dbW ⟨some "N", some "n@x.y", some "1", some "S", some "C", some "M"⟩
      "N" "n@x.y" "1" "S" "C" "M" rfl rfl rfl rfl rfl rfl
      dbW ⟨true, false⟩ ⟨some "E", some "e@x.y", some "2", none, some "4"⟩
      (by decide) (by decide) (by decide) (by decide)).2.2.1,
    (notification_step_changes_response dbW 0 (1/2) "alice@example.com" "hunter2"
      (by decide) dbW ⟨some "N", some "n@x.y", some "1", some "Student", some "W"⟩
      (by decide) (by decide) (by decide) (by decide) "Student" rfl
      dbW ⟨some "N", some "n@x.y", some "1", some "S", some "C", some "M"⟩
      "N" "n@x.y" "1" "S" "C" "M" rfl rfl rfl rfl rfl rfl
      dbW ⟨true, false⟩ ⟨some "E", some "e@x.y", some "2", none, some "4"⟩
      (by decide) (by decide) (by decide) (by decide)).2.2.2.1⟩

-- ------------------ C5 ------------------

/-- C5: a login with credentials matching a stored user appends to
`user_otps` a code that is `Math.floor(100000 + r * 900000)` rendered in
decimal — a number between 100000 and 999999, hence a numeric string of
exactly six digits — with `expires_at = now + 10 * 60 * 1000`. -/
theorem login_stores_six_digit_otp (db : DB) (now : Nat) (r : ℚ)
    (h0 : 0 ≤ r) (h1 : r < 1) (e p : String)
    (hmatch : ∃ u ∈ db.users, u.email = some e ∧ u.password = some p) :
    (loginHandler db now r noFault ⟨some e, some p⟩).2.userOtps =
      db.userOtps ++ [⟨some e, some ((genOtp r).repr), now + 10 * 60 * 1000⟩] ∧
    100000 ≤ genOtp r ∧ genOtp r ≤ 999999 ∧
    (Nat.digits 10 (genOtp r)).length = 6 := by
  obtain ⟨u, hu, hue, hup⟩ := hmatch
  have hfe : (db.users.filter
      (fun v => sqlEq v.email (some e) && sqlEq v.password (some p))).isEmpty
        = false := by
    refine filter_isEmpty_eq_false _ _ u hu ?_
    simp [sqlEq, hue, hup]
  obtain ⟨hlo, hhi⟩ := genOtp_bounds r h0 h1
  exact ⟨by simp [loginHandler, noFault, hfe, sendMail], hlo, hhi,
    digits_length_six _ hlo hhi⟩

/-- Witness for C5: Alice logs in with `Math.random() = 1/2` at time 0;
the stored code is "550000" expiring at 600000 ms. -/
theorem login_stores_six_digit_otp_witness :
    (0 : ℚ) ≤ 1/2 ∧ (1/2 : ℚ) < 1 ∧
    (∃ u ∈ dbW.users,
      u.email = some "alice@example.com" ∧ u.password = some "hunter2") ∧
    (loginHandler dbW 0 (1/2) noFault
      ⟨some "alice@example.com", some "hunter2"⟩).2.userOtps =
      [⟨some "alice@example.com", some ((genOtp (1/2)).repr), 600000⟩] :=
  ⟨by norm_num, by norm_num, by decide,
    (login_stores_six_digit_otp dbW 0 (1/2) (by norm_num) (by norm_num)
      "alice@example.com" "hunter2" (by decide)).1⟩

-- ------------------ C3 ------------------

/-- C3: with a stored, non-expired row matching email and code, the
first verify-otp responds 200 with the placeholder token and `users[0]`,
deletes every `user_otps` row of that email, and the identical second
request then responds 400 "Invalid or expired OTP". -/
theorem verify_otp_succeeds_exactly_once (db : DB) (now : Nat) (e o : String)
    (row : OtpRow) (hrow : row ∈ db.userOtps) (he : row.email = some e)
    (ho : row.otp = some o) (hexp : now < row.expiresAt) :
    (verifyOtpHandler db now noFault ⟨some e, some o⟩).1 =
      .success "FAKE-JWT-TOKEN"
        ((db.users.filter (fun u => sqlEq u.email (some e))).head?) ∧
    (∀ s ∈ (verifyOtpHandler db now noFault ⟨some e, some o⟩).2.userOtps,
      ¬s.email = some e) ∧
    (verifyOtpHandler (verifyOtpHandler db now noFault ⟨some e, some o⟩).2
      now noFault ⟨some e, some o⟩).1 = .invalidOtp ∧
    (verifyOtpHandler (verifyOtpHandler db now noFault ⟨some e, some o⟩).2
      now noFault ⟨some e, some o⟩).1.status = 400 := by
  have hfe : (db.userOtps.filter
      (fun s => sqlEq s.email (some e) && sqlEq s.otp (some o) &&
        decide (now < s.expiresAt))).isEmpty = false := by
    refine filter_isEmpty_eq_false _ _ row hrow ?_
    simp [sqlEq, he, ho, hexp]
  have hdel : ∀ s ∈ (db.userOtps.filter (fun s => !(sqlEq s.email (some e)))),
      ¬s.email = some e := by
    intro s hs hcontra
    have := (List.mem_filter.mp hs).2
    rw [hcontra] at this
    simp [sqlEq] at this
  have hsecond : ((db.userOtps.filter (fun s => !(sqlEq s.email (some e)))).filter
      (fun s => sqlEq s.email (some e) && sqlEq s.otp (some o) &&
        decide (now < s.expiresAt))) = [] := by
    rw [List.filter_eq_nil_iff]
    intro s hs
    simp [sqlEq_eq_false_of_ne s.email e (hdel s hs)]
  refine ⟨?_, ?_, ?_, ?_⟩
  · simp [verifyOtpHandler, noFault, hfe]
  · intro s hs
    simp only [verifyOtpHandler, noFault, hfe, Bool.false_eq_true, if_false] at hs
    exact hdel s hs
  · simp [verifyOtpHandler, noFault, hfe, hsecond]
  · simp [verifyOtpHandler, noFault, hfe, hsecond, VerifyOtpResp.status]

/-- Witness for C3: a stored fresh code "123456" for Alice verifies once
and only once against `dbW` extended with that row. -/
theorem verify_otp_succeeds_exactly_once_witness :
    (⟨some "alice@example.com", some "123456", 600000⟩ : OtpRow) ∈
      ({ dbW with
        userOtps := [⟨some "alice@example.com", some "123456", 600000⟩] } : DB).userOtps ∧
    (0 : Nat) < 600000 ∧
    (verifyOtpHandler
      { dbW with userOtps := [⟨some "alice@example.com", some "123456", 600000⟩] }
      0 noFault ⟨some "alice@example.com", some "123456"⟩).1 =
      .success "FAKE-JWT-TOKEN"
        (some ⟨1, some "Alice", some "alice@example.com", some "hunter2"⟩) ∧
    (verifyOtpHandler
      (verifyOtpHandler
        { dbW with userOtps := [⟨some "alice@example.com", some "123456", 600000⟩] }
        0 noFault ⟨some "alice@example.com", some "123456"⟩).2
      0 noFault ⟨some "alice@example.com", some "123456"⟩).1 = .invalidOtp :=
  ⟨by decide, by decide,
    by
      have h := (verify_otp_succeeds_exactly_once
        { dbW with userOtps := [⟨some "alice@example.com", some "123456", 600000⟩] } 0
        "alice@example.com" "123456" ⟨some "alice@example.com", some "123456", 600000⟩
        (by decide) rfl rfl (by decide)).1
      simpa [dbW, sqlEq] using h,
    (verify_otp_succeeds_exactly_once
      { dbW with userOtps := [⟨some "alice@example.com", some "123456", 600000⟩] } 0
      "alice@example.com" "123456" ⟨some "alice@example.com", some "123456", 600000⟩
      (by decide) rfl rfl (by decide)).2.2.1⟩

-- ------------------ C4 ------------------

/-- C4: when every stored copy of the code for this email has
`expires_at ≤ now`, verify-otp responds 400 and returns the store
unchanged — the expired row is not deleted. -/
theorem verify_otp_expired_400_and_unchanged (db : DB) (now : Nat)
    (e o : String) (row : OtpRow) (hrow : row ∈ db.userOtps)
    (he : row.email = some e) (ho : row.otp = some o)
    (hexpired : ∀ s ∈ db.userOtps,
      s.email = some e → s.otp = some o → s.expiresAt ≤ now) :
    (verifyOtpHandler db now noFault ⟨some e, some o⟩).1 = .invalidOtp ∧
    (verifyOtpHandler db now noFault ⟨some e, some o⟩).1.status = 400 ∧
    (verifyOtpHandler db now noFault ⟨some e, some o⟩).2 = db := by
  have hnil : (db.userOtps.filter
      (fun s => sqlEq s.email (some e) && sqlEq s.otp (some o) &&
        decide (now < s.expiresAt))) = [] := by
    rw [List.filter_eq_nil_iff]
    intro s hs
    intro hcontra
    simp only [Bool.and_eq_true, decide_eq_true_eq] at hcontra
    obtain ⟨⟨hse, hso⟩, hlt⟩ := hcontra
    have := hexpired s hs (eq_of_sqlEq_eq_true _ _ hse) (eq_of_sqlEq_eq_true _ _ hso)
    omega
  refine ⟨?_, ?_, ?_⟩ <;>
    simp [verifyOtpHandler, noFault, hnil, VerifyOtpResp.status]

/-- Witness for C4: the code "123456" stored for Alice expired at
600000 ms; verifying at 600000 ms fails and deletes nothing. -/
theorem verify_otp_expired_400_and_unchanged_witness :
    (⟨some "alice@example.com", some "123456", 600000⟩ : OtpRow) ∈
      ({ dbW with
        userOtps := [⟨some "alice@example.com", some "123456", 600000⟩] } : DB).userOtps ∧
    (verifyOtpHandler
      { dbW with userOtps := [⟨some "alice@example.com", some "123456", 600000⟩] }
      600000 noFault ⟨some "alice@example.com", some "123456"⟩).1 = .invalidOtp ∧
    (verifyOtpHandler
      { dbW with userOtps := [⟨some "alice@example.com", some "123456", 600000⟩] }
      600000 noFault ⟨some "alice@example.com", some "123456"⟩).2 =
      { dbW with userOtps := [⟨some "alice@example.com", some "123456", 600000⟩] } :=
  ⟨by decide,
    (verify_otp_expired_400_and_unchanged
      { dbW with userOtps := [⟨some "alice@example.com", some "123456", 600000⟩] }
      600000 "alice@example.com" "123456"
      ⟨some "alice@example.com", some "123456", 600000⟩
      (by decide) rfl rfl (by decide)).1,
    (verify_otp_expired_400_and_unchanged
      { dbW with userOtps := [⟨some "alice@example.com", some "123456", 600000⟩] }
      600000 "alice@example.com" "123456"
      ⟨some "alice@example.com", some "123456", 600000⟩
      (by decide) rfl rfl (by decide)).2.2⟩

-- ------------------ C9 ------------------

/-- C9: a successful verify-otp responds with `users[0]` of
`SELECT * FROM users WHERE email = ?` — the complete stored `UserRow`,
its plaintext `password` column included, unprojected. -/
theorem verify_otp_returns_full_user_row (db : DB) (now : Nat) (e o : String)
    (row : OtpRow) (hrow : row ∈ db.userOtps) (he : row.email = some e)
    (ho : row.otp = some o) (hexp : now < row.expiresAt) (u : UserRow)
    (hu : (db.users.filter (fun v => sqlEq v.email (some e))).head? = some u) :
    (verifyOtpHandler db now noFault ⟨some e, some o⟩).1 =
      .success "FAKE-JWT-TOKEN" (some u) ∧
    u ∈ db.users := by
  have hfe : (db.userOtps.filter
      (fun s => sqlEq s.email (some e) && sqlEq s.otp (some o) &&
        decide (now < s.expiresAt))).isEmpty = false := by
    refine filter_isEmpty_eq_false _ _ row hrow ?_
    simp [sqlEq, he, ho, hexp]
  constructor
  · simp [verifyOtpHandler, noFault, hfe, hu]
  · have hmem : u ∈ db.users.filter (fun v => sqlEq v.email (some e)) :=
      List.mem_of_mem_head? (by simp [hu])
    exact (List.mem_filter.mp hmem).1

/-- Witness for C9: Alice's full row — password "hunter2" included — is
returned as the `user` field. -/
theorem verify_otp_returns_full_user_row_witness :
    ((({ dbW with
        userOtps := [⟨some "alice@example.com", some "99", 5⟩] } : DB).users.filter
        (fun v => sqlEq v.email (some "alice@example.com"))).head? =
      some ⟨1, some "Alice", some "alice@example.com", some "hunter2"⟩) ∧
    (verifyOtpHandler { dbW with userOtps := [⟨some "alice@example.com", some "99", 5⟩] }
      0 noFault ⟨some "alice@example.com", some "99"⟩).1 =
      .success "FAKE-JWT-TOKEN"
        (some ⟨1, some "Alice", some "alice@example.com", some "hunter2"⟩) :=
  ⟨by decide,
    (verify_otp_returns_full_user_row
      { dbW with userOtps := [⟨some "alice@example.com", some "99", 5⟩] } 0
      "alice@example.com" "99" ⟨some "alice@example.com", some "99", 5⟩
      (by decide) rfl rfl (by decide)
      ⟨1, some "Alice", some "alice@example.com", some "hunter2"⟩ (by decide)).1⟩

-- ------------------ C6 ------------------

/-- C6 counterexample: uploading "virus.exe" to mentor-apply is indeed
rejected before the handler (no row, no stored file), but the rejection
is `new Error("Invalid file type")` passed to `next`, and Server.js
installs no error middleware, so Express's default error handler
answers 500 — not the claimed 400. -/
theorem mentor_apply_exe_rejected_with_500_not_400 :
    (mentorApplyRoute dbW [] 99 false
      ⟨some "N", some "n@x.y", some "1", some "AI", some "5", some "Hi"⟩
      (some ⟨"virus.exe", 1000⟩)).1 = .uploadRejected .invalidFileType ∧
    (mentorApplyRoute dbW [] 99 false
      ⟨some "N", some "n@x.y", some "1", some "AI", some "5", some "Hi"⟩
      (some ⟨"virus.exe", 1000⟩)).1.status = 500 ∧
    ¬((mentorApplyRoute dbW [] 99 false
      ⟨some "N", some "n@x.y", some "1", some "AI", some "5", some "Hi"⟩
      (some ⟨"virus.exe", 1000⟩)).1.status = 400) ∧
    (mentorApplyRoute dbW [] 99 false
      ⟨some "N", some "n@x.y", some "1", some "AI", some "5", some "Hi"⟩
      (some ⟨"virus.exe", 1000⟩)).2.1.mentorApplications = [] ∧
    (mentorApplyRoute dbW [] 99 false
      ⟨some "N", some "n@x.y", some "1", some "AI", some "5", some "Hi"⟩
      (some ⟨"virus.exe", 1000⟩)).2.2 = [] := by
  decide

/-- C6 as amended: a file whose extension fails the {.pdf, .doc, .docx}
filter (".exe" included) is rejected before the handler runs — no
`mentor_applications` row is inserted and nothing is stored on disk —
but with the 500 of Express's default error handler rather than a 400;
a ".pdf" within the 10 MiB limit (with all text fields present and a
successful insert) is stored on disk and answered with
`fileUrl = "/uploads/" + storedFilename`. -/
theorem mentor_apply_filter_and_pdf_success
    (db1 : DB) (up1 : List String) (n1 : Nat) (b1 : MentorApplyBody)
    (f1 : IncomingFile) (hbad : fileFilterOk f1.originalname = false)
    (db2 : DB) (up2 : List String) (n2 : Nat) (b2 : MentorApplyBody)
    (f2 : IncomingFile) (hpdf : toLowerCase (extname f2.originalname) = ".pdf")
    (hsize : f2.size ≤ 10 * 1024 * 1024)
    (s1 s2 s3 s4 s5 s6 : String)
    (ha : b2.name = some s1) (hb : b2.email = some s2) (hc : b2.phone = some s3)
    (hd : b2.expertise = some s4) (hf : b2.experience = some s5)
    (hg : b2.message = some s6) (hid : 0 < db2.nextMentorApplicationId) :
    (mentorApplyRoute db1 up1 n1 false b1 (some f1)).1 =
      .uploadRejected .invalidFileType ∧
    (mentorApplyRoute db1 up1 n1 false b1 (some f1)).1.status = 500 ∧
    (mentorApplyRoute db1 up1 n1 false b1 (some f1)).2.1 = db1 ∧
    (mentorApplyRoute db1 up1 n1 false b1 (some f1)).2.2 = up1 ∧
    (mentorApplyRoute db2 up2 n2 false b2 (some f2)).1 =
      .success db2.nextMentorApplicationId
        ("/uploads/" ++ (n2.repr ++ extname f2.originalname)) ∧
    0 < db2.nextMentorApplicationId ∧
    (mentorApplyRoute db2 up2 n2 false b2 (some f2)).2.2 =
      up2 ++ [n2.repr ++ extname f2.originalname] ∧
    (mentorApplyRoute db2 up2 n2 false b2 (some f2)).2.1.mentorApplications =
      db2.mentorApplications ++ [⟨db2.nextMentorApplicationId, b2.name, b2.email,
        b2.phone, b2.expertise, b2.experience, b2.message,
        n2.repr ++ extname f2.originalname⟩] := by
  have hok : fileFilterOk f2.originalname = true := by
    simp [fileFilterOk, hpdf]
  have hnotbig : (f2.size > 10 * 1024 * 1024) = False := by
    simp; omega
  refine ⟨?_, ?_, ?_, ?_, ?_, hid, ?_, ?_⟩ <;>
    simp [mentorApplyRoute, multerSingleResume, hbad, hok, hnotbig,
      MentorApplyResp.status, expressDefaultErrorStatus,
      ha, hb, hc, hd, hf, hg]

/-- Witness for C6 as amended: "virus.exe" is rejected with 500 and
"cv.pdf" (7 bytes) is stored as "99.pdf" and answered with
fileUrl "/uploads/99.pdf". -/
theorem mentor_apply_filter_and_pdf_success_witness :
    fileFilterOk "virus.exe" = false ∧
    toLowerCase (extname "cv.pdf") = ".pdf" ∧
    (mentorApplyRoute dbW [] 99 false
      ⟨some "N", some "n@x.y", some "1", some "AI", some "5", some "Hi"⟩
      (some ⟨"virus.exe", 1000⟩)).1.status = 500 ∧
    (mentorApplyRoute dbW [] 99 false
      ⟨some "N", some "n@x.y", some "1", some "AI", some "5", some "Hi"⟩
      (some ⟨"cv.pdf", 7⟩)).1 = .success 1 "/uploads/99.pdf" ∧
    (mentorApplyRoute dbW [] 99 false
      ⟨some "N", some "n@x.y", some "1", some "AI", some "5", some "Hi"⟩
      (some ⟨"cv.pdf", 7⟩)).2.2 = ["99.pdf"] := by
  have h := mentor_apply_filter_and_pdf_success dbW [] 99
    ⟨some "N", some "n@x.y", some "1", some "AI", some "5", some "Hi"⟩
    ⟨"virus.exe", 1000⟩ (by decide) dbW [] 99
    ⟨some "N", some "n@x.y", some "1", some "AI", some "5", some "Hi"⟩
    ⟨"cv.pdf", 7⟩ (by decide) (by decide) "N" "n@x.y" "1" "AI" "5" "Hi"
    rfl rfl rfl rfl rfl rfl (by decide)
  exact ⟨by decide, by decide, h.2.1, by
    have := h.2.2.2.2.1
    simpa [dbW] using this, by
    have := h.2.2.2.2.2.2.1
    simpa using this⟩

-- ------------------ C10 ------------------

/-- C10: multer's disk storage writes the accepted resume before the
handler runs; when the INSERT then fails the handler answers 500 and
removes nothing, so the uploads directory still holds the new file while
no `mentor_applications` row exists — the write and the insert are not
atomic and the file is orphaned. -/
theorem mentor_apply_orphan_file_on_insert_failure (db : DB)
    (uploads : List String) (now : Nat) (b : MentorApplyBody)
    (f : IncomingFile) (hok : fileFilterOk f.originalname = true)
    (hsize : f.size ≤ 10 * 1024 * 1024) :
    (mentorApplyRoute db uploads now true b (some f)).1 = .serverError ∧
    (mentorApplyRoute db uploads now true b (some f)).1.status = 500 ∧
    (mentorApplyRoute db uploads now true b (some f)).2.1 = db ∧
    (mentorApplyRoute db uploads now true b (some f)).2.2 =
      uploads ++ [now.repr ++ extname f.originalname] := by
  have hnotbig : (f.size > 10 * 1024 * 1024) = False := by
    simp; omega
  refine ⟨?_, ?_, ?_, ?_⟩ <;>
    simp [mentorApplyRoute, multerSingleResume, hok, hnotbig,
      MentorApplyResp.status]

/-- Witness for C10: with a failing INSERT, uploading "cv.pdf" leaves
"99.pdf" on disk, no row inserted, response 500. -/
theorem mentor_apply_orphan_file_on_insert_failure_witness :
    fileFilterOk "cv.pdf" = true ∧ (7 : Nat) ≤ 10 * 1024 * 1024 ∧
    (mentorApplyRoute dbW [] 99 true
      ⟨some "N", some "n@x.y", some "1", some "AI", some "5", some "Hi"⟩
      (some ⟨"cv.pdf", 7⟩)).1 = .serverError ∧
    (mentorApplyRoute dbW [] 99 true
      ⟨some "N", some "n@x.y", some "1", some "AI", some "5", some "Hi"⟩
      (some ⟨"cv.pdf", 7⟩)).2.2 = ["99.pdf"] :=
  ⟨by decide, by decide,
    (mentor_apply_orphan_file_on_insert_failure dbW [] 99
      ⟨some "N", some "n@x.y", some "1", some "AI", some "5", some "Hi"⟩
      ⟨"cv.pdf", 7⟩ (by decide) (by decide)).1,
    by
      have := (mentor_apply_orphan_file_on_insert_failure dbW [] 99
        ⟨some "N", some "n@x.y", some "1", some "AI", some "5", some "Hi"⟩
        ⟨"cv.pdf", 7⟩ (by decide) (by decide)).2.2.2
      simpa using this⟩

-- ------------------ C7 ------------------

/-- C7 counterexample: the signup handler performs no field validation;
with name, email and password all absent the existence SELECT runs with
`email = NULL` (matching no row) and the INSERT runs with three `NULL`
binds, so on a store that accepts the row signup answers 200 — not the
claimed 400 — and a row IS created. -/
theorem signup_missing_fields_inserts_row_not_400 :
    (signupHandler dbW noFault ⟨none, none, none⟩).1 = .success ∧
    (signupHandler dbW noFault ⟨none, none, none⟩).1.status = 200 ∧
    ¬((signupHandler dbW noFault ⟨none, none, none⟩).1.status = 400) ∧
    (signupHandler dbW noFault ⟨none, none, none⟩).2.users =
      dbW.users ++ [⟨2, none, none, none⟩] := by
  decide

/-- C7 as amended: enroll and register answer 400 before any insert
when one of their validated fields is falsy, and mentor-apply answers
400 before any insert when the file is absent; but signup, demo-request
and testimonials validate nothing — `query()` escapes each missing
field to SQL `NULL` and executes the statement, so such a request is
never answered 400: when the store accepts the `NULL` row (no schema in
the repository forbids it), signup and testimonials answer success and
demo-request answers 500 from the undefined `sendMail`, and in each
case a row IS created; a store-side rejection is the generic 500. -/
theorem single_step_validation_and_null_binds
    (db1 : DB) (env : MailEnv) (fa1 : Bool) (eb : EnrollBody)
    (h1 : (truthy eb.name && truthy eb.email && truthy eb.phone &&
      truthy eb.courseId) = false)
    (db2 : DB) (fa2 : Bool) (rb : RegisterBody)
    (h2 : (truthy rb.name && truthy rb.email && truthy rb.phone &&
      truthy rb.workshop) = false)
    (db3 : DB) (up3 : List String) (n3 : Nat) (fa3 : Bool) (mb : MentorApplyBody)
    (db4 : DB) (fa4 : Nat → Bool) (sb : SignupBody) (h4 : sb.email = none)
    (db5 : DB) (qb : DemoRequestBody)
    (db6 : DB) (tb : TestimonialBody) :
    (enrollHandler db1 env fa1 eb).1 = .missingFields ∧
    (enrollHandler db1 env fa1 eb).1.status = 400 ∧
    (enrollHandler db1 env fa1 eb).2.1 = db1 ∧
    (registerHandler db2 fa2 rb).1 = .missingFields ∧
    (registerHandler db2 fa2 rb).1.status = 400 ∧
    (registerHandler db2 fa2 rb).2 = db2 ∧
    (mentorApplyRoute db3 up3 n3 fa3 mb none).1 = .resumeRequired ∧
    (mentorApplyRoute db3 up3 n3 fa3 mb none).1.status = 400 ∧
    (mentorApplyRoute db3 up3 n3 fa3 mb none).2.1 = db3 ∧
    ¬((signupHandler db4 fa4 sb).1.status = 400) ∧
    (signupHandler db4 noFault sb).1 = .success ∧
    (signupHandler db4 noFault sb).2.users =
      db4.users ++ [⟨db4.nextUserId, sb.name, sb.email, sb.password⟩] ∧
    (demoRequestHandler db5 false qb).1 = .serverError ∧
    (demoRequestHandler db5 false qb).2.demoRequests =
      db5.demoRequests ++ [⟨db5.nextDemoRequestId, qb.name, qb.email, qb.phone,
        qb.status, qb.course, qb.message⟩] ∧
    (testimonialsHandler db6 false tb).1 = .success db6.nextTestimonialId ∧
    (testimonialsHandler db6 false tb).1.status = 200 ∧
    (testimonialsHandler db6 false tb).2.testimonials =
      db6.testimonials ++ [⟨db6.nextTestimonialId, tb.name, tb.role, tb.review,
        tb.verified⟩] := by
  have hfilter : db4.users.filter (fun u => sqlEq u.email sb.email) = [] := by
    rw [h4, List.filter_eq_nil_iff]
    intro u _
    simp [sqlEq_none_eq_false]
  refine ⟨?_, ?_, ?_, ?_, ?_, ?_, ?_, ?_, ?_, ?_, ?_, ?_, ?_, ?_, ?_, ?_, ?_⟩
  · simp [enrollHandler, h1]
  · simp [enrollHandler, h1, EnrollResp.status]
  · simp [enrollHandler, h1]
  · simp [registerHandler, h2]
  · simp [registerHandler, h2, RegisterResp.status]
  · simp [registerHandler, h2]
  · simp [mentorApplyRoute, multerSingleResume]
  · simp [mentorApplyRoute, multerSingleResume, MentorApplyResp.status]
  · simp [mentorApplyRoute, multerSingleResume]
  · intro hcontra
    by_cases hf0 : fa4 0
    · simp [signupHandler, hf0, SignupResp.status] at hcontra
    · by_cases hf1 : fa4 1
      · simp [signupHandler, hf0, hf1, hfilter, SignupResp.status] at hcontra
      · simp [signupHandler, hf0, hf1, hfilter, SignupResp.status] at hcontra
  · simp [signupHandler, noFault, hfilter]
  · simp [signupHandler, noFault, hfilter]
  · simp [demoRequestHandler, sendMail]
  · simp [demoRequestHandler, sendMail]
  · simp [testimonialsHandler]
  · simp [testimonialsHandler, TestimonialResp.status]
  · simp [testimonialsHandler]

/-- Witness for C7 as amended, everything concrete: enroll, register
and mentor-apply reject with 400, signup succeeds (200) on a body
without email, demo-request answers 500 after inserting, testimonials
answers 200 on a body without name. -/
theorem single_step_validation_and_null_binds_witness :
    ((truthy (none : Option String) && truthy (some "e@x.y") && truthy (some "1") &&
      truthy (some "4")) = false) ∧
    (enrollHandler dbW ⟨true, false⟩ false
      ⟨none, some "e@x.y", some "1", none, some "4"⟩).1.status = 400 ∧
    (registerHandler dbW false
      ⟨some "N", some "n@x.y", none, some "S", some "W"⟩).1.status = 400 ∧
    (mentorApplyRoute dbW [] 99 false
      ⟨some "N", some "n@x.y", some "1", some "AI", some "5", some "Hi"⟩
      none).1.status = 400 ∧
    (signupHandler dbW noFault ⟨some "N", none, some "pw"⟩).1 = .success ∧
    (demoRequestHandler dbW false
      ⟨none, some "n@x.y", some "1", some "S", some "C", some "M"⟩).1 = .serverError ∧
    (testimonialsHandler dbW false
      ⟨none, some "R", some "V", some "t"⟩).1 = .success 1 := by
  have h := single_step_validation_and_null_binds dbW ⟨true, false⟩ false
    ⟨none, some "e@x.y", some "1", none, some "4"⟩ (by decide)
    dbW false ⟨some "N", some "n@x.y", none, some "S", some "W"⟩ (by decide)
    dbW [] 99 false ⟨some "N", some "n@x.y", some "1", some "AI", some "5", some "Hi"⟩
    dbW noFault ⟨some "N", none, some "pw"⟩ rfl
    dbW ⟨none, some "n@x.y", some "1", some "S", some "C", some "M"⟩
    dbW ⟨none, some "R", some "V", some "t"⟩
  exact ⟨by decide, h.2.1, h.2.2.2.2.1, h.2.2.2.2.2.2.2.1,
    h.2.2.2.2.2.2.2.2.2.2.1, h.2.2.2.2.2.2.2.2.2.2.2.2.1,
    h.2.2.2.2.2.2.2.2.2.2.2.2.2.2.1⟩
